import Mathlib

/-!
Verification of `src/scripts/train.py` (the DOLMA training entry point).

The script is configuration-driven glue: it parses CLI arguments, loads a
`TrainConfig`, dispatches scheduler and algorithm names to framework
constructors, and runs a single `fit`/`close` sequence on the trainer.
We embed the script shallowly: framework constructors become inductive
constructors recording the arguments passed to them, Python exceptions
become an `Except` error channel, the in-place mutation of `cfg.run_name`
becomes explicit state passing (the updated config is returned alongside
the result), and the trainer's `fit`/`close` calls become an event list.
Configuration values whose contents the script merely passes through
(warmup durations, alpha factors, keyword-argument values) are modelled
as opaque strings.
-/

namespace Train

/-- Opaque stand-in for a Python value that the script passes through
without inspecting (e.g. `t_warmup`, `alpha_f`, keyword-argument values). -/
abbrev PyValue := String

/-- A Python keyword-argument dictionary, as an ordered association list
(Python dicts preserve insertion order). -/
abbrev Kwargs := List (String × PyValue)

/-- The exception kinds the script can raise: `DolmaConfigurationError`
(from `build_scheduler`), `DolmaCliError` (from the `__main__` block) and
the built-in `ValueError` (from `build_algorithm`). -/
inductive PyError where
  | DolmaConfigurationError (msg : String)
  | DolmaCliError (msg : String)
  | ValueError (msg : String)
  | IndexError (msg : String)
deriving DecidableEq, Repr

/-- The scheduler configuration record consumed by `build_scheduler`:
a name plus the `t_warmup` and `alpha_f` fields it forwards. -/
structure SchedulerConfig where
  name : String
  t_warmup : PyValue
  alpha_f : PyValue
deriving DecidableEq, Repr

/-- The framework scheduler objects `build_scheduler` can construct, each
recording exactly the keyword arguments the script passes. -/
inductive Scheduler where
  | ConstantWithWarmupScheduler (t_warmup : PyValue)
  | CosineAnnealingWithWarmupScheduler (t_warmup : PyValue) (alpha_f : PyValue)
  | LinearWithWarmupScheduler (t_warmup : PyValue) (alpha_f : PyValue)
deriving DecidableEq, Repr

/-- The framework algorithm objects `build_algorithm` can construct, each
recording the keyword arguments passed through to it. -/
inductive Algorithm where
  | GradientClipping (kwargs : Kwargs)
  | FusedLayerNorm (kwargs : Kwargs)
  | GatedLinearUnits (kwargs : Kwargs)
  | LowPrecisionLayerNorm (kwargs : Kwargs)
deriving DecidableEq, Repr

/-- The logger destinations `main` assembles: always a
`DolmaConsoleLogger`, plus a `WandBLogger` when `cfg.wandb` is set. -/
inductive Logger where
  | DolmaConsoleLogger (log_interval : Nat)
  | WandBLogger (kwargs : Kwargs)
deriving DecidableEq, Repr

/-- The observable trainer method calls at the end of `main`. -/
inductive TrainerEvent where
  | fit
  | close
deriving DecidableEq, Repr

/-- The fields of `TrainConfig` that `src/scripts/train.py` itself reads
or writes.  `algorithms` is an optional ordered map from algorithm name to
its keyword arguments, mirroring the optional dict in the Python config. -/
structure TrainConfig where
  run_name : Option String
  seed : Int
  scheduler : SchedulerConfig
  algorithms : Option (List (String × Kwargs))
  wandb : Option Kwargs
  console_log_interval : Nat
  dry_run : Bool
deriving DecidableEq, Repr

/-- The process environment as the script sees it: only the
`COMPOSER_RUN_NAME` variable is read (train.py line 83). -/
structure Env where
  COMPOSER_RUN_NAME : Option String
deriving DecidableEq, Repr

/-- Embedding of `build_scheduler` (train.py lines 33-47): dispatch on
`cfg.name` over the three recognized scheduler names, else raise a
`DolmaConfigurationError` naming the unrecognized scheduler. -/
def build_scheduler (cfg : SchedulerConfig) : Except PyError Scheduler :=
  if cfg.name = "constant_with_warmup" then
    Except.ok (Scheduler.ConstantWithWarmupScheduler cfg.t_warmup)
  else if cfg.name = "cosine_with_warmup" then
    Except.ok (Scheduler.CosineAnnealingWithWarmupScheduler cfg.t_warmup cfg.alpha_f)
  else if cfg.name = "linear_decay_with_warmup" then
    Except.ok (Scheduler.LinearWithWarmupScheduler cfg.t_warmup cfg.alpha_f)
  else
    Except.error (PyError.DolmaConfigurationError ("Not sure how to build scheduler: " ++ cfg.name))

/-- Embedding of `build_algorithm` (train.py lines 50-64): dispatch on
`name` over the four recognized algorithm names (the `alibi` branch is
commented out in the source), else raise a `ValueError`. -/
def build_algorithm (name : String) (kwargs : Kwargs) : Except PyError Algorithm :=
  if name = "gradient_clipping" then
    Except.ok (Algorithm.GradientClipping kwargs)
  else if name = "fused_layernorm" then
    Except.ok (Algorithm.FusedLayerNorm kwargs)
  else if name = "gated_linear_units" then
    Except.ok (Algorithm.GatedLinearUnits kwargs)
  else if name = "low_precision_layernorm" then
    Except.ok (Algorithm.LowPrecisionLayerNorm kwargs)
  else
    Except.error (PyError.ValueError ("Not sure how to build algorithm: " ++ name))

/-- Embedding of the list comprehension at train.py line 112:
`[build_algorithm(name, algorithm_cfg) for name, algorithm_cfg in ...]`,
building one algorithm per entry in order; the first exception aborts. -/
def build_algorithms : List (String × Kwargs) → Except PyError (List Algorithm)
  | [] => Except.ok []
  | (name, algorithm_cfg) :: rest =>
    match build_algorithm name algorithm_cfg with
    | Except.error e => Except.error e
    | Except.ok a =>
      match build_algorithms rest with
      | Except.error e => Except.error e
      | Except.ok more => Except.ok (a :: more)

/-- Classifies results that correspond to raising `DolmaConfigurationError`. -/
def is_configuration_error {α : Type} : Except PyError α → Bool
  | Except.error (PyError.DolmaConfigurationError _) => true
  | _ => false

/-- The observable outcome of a completed run of `main`: the values the
script passes to the `Trainer` constructor (run name, scheduler,
algorithms, loggers), the trainer method calls it performs, and the final
success message it echoes. -/
structure MainState where
  run_name : Option String
  scheduler : Scheduler
  algorithms : List Algorithm
  loggers : List Logger
  trainerEvents : List TrainerEvent
  message : String
deriving DecidableEq, Repr

/-- The run-name defaulting step (train.py lines 82-83): when
`cfg.run_name is None`, set it to `os.environ.get("COMPOSER_RUN_NAME", "llm")`;
otherwise leave `cfg` untouched. -/
def resolve_cfg (cfg : TrainConfig) (env : Env) : TrainConfig :=
  match cfg.run_name with
  | none => { cfg with run_name := some (env.COMPOSER_RUN_NAME.getD "llm") }
  | some _ => cfg

/-- The body of `main` after the run-name mutation, in source order:
build the scheduler (line 106), build the algorithms (line 112), assemble
the loggers (lines 118-120), construct the trainer with `run_name=cfg.run_name`,
call `fit` unless `cfg.dry_run` and then `close` (lines 160-163), and echo
the final message (lines 165-168).  Exceptions abort with no trainer calls. -/
def main_body (cfg : TrainConfig) : Except PyError MainState :=
  match build_scheduler cfg.scheduler with
  | Except.error e => Except.error e
  | Except.ok sched =>
    match build_algorithms (cfg.algorithms.getD []) with
    | Except.error e => Except.error e
    | Except.ok algs =>
      Except.ok
        { run_name := cfg.run_name
          scheduler := sched
          algorithms := algs
          loggers := Logger.DolmaConsoleLogger cfg.console_log_interval ::
            (match cfg.wandb with
             | none => []
             | some kw => [Logger.WandBLogger kw])
          trainerEvents :=
            (if cfg.dry_run then [] else [TrainerEvent.fit]) ++ [TrainerEvent.close]
          message := if cfg.dry_run then "Dry run complete" else "Training complete" }

/-- Embedding of `main` (train.py lines 67-168).  Python mutates `cfg`
in place (the run-name defaulting), so the embedding returns the updated
config alongside the result of the rest of the run. -/
def main (cfg : TrainConfig) (env : Env) : TrainConfig × Except PyError MainState :=
  let cfg2 := resolve_cfg cfg env
  (cfg2, main_body cfg2)

/-- The trace of trainer method calls in a run of `main`; a run that
raises performs none. -/
def mainTrainerEvents (cfg : TrainConfig) (env : Env) : List TrainerEvent :=
  match (main cfg env).2 with
  | Except.ok st => st.trainerEvents
  | Except.error _ => []

/-- Embedding of the `__main__` block (train.py lines 171-180): take
`sys.argv[1]` as the YAML config path and `sys.argv[2:]` as the override
options; the `IndexError` from a missing config path is turned into a
`DolmaCliError` usage message built from `sys.argv[0]` (with an empty argv,
which cannot arise from a script invocation, even formatting that message
raises `IndexError`).  On success the parsed pair is what is handed on to
configuration loading, so the error branch returns before any
configuration is loaded. -/
def script_entry (argv : List String) : Except PyError (String × List String) :=
  match argv with
  | _prog :: yaml_path :: args_list => Except.ok (yaml_path, args_list)
  | [prog] => Except.error (PyError.DolmaCliError ("Usage: " ++ prog ++ " [CONFIG_PATH] [OPTIONS]"))
  | [] => Except.error (PyError.IndexError "list index out of range")

/-! ### Helper lemmas -/

/-- Unfolding equation for `build_algorithms` on a nonempty entry list. -/
theorem build_algorithms_cons (name : String) (acfg : Kwargs) (tl : List (String × Kwargs)) :
    build_algorithms ((name, acfg) :: tl) =
      match build_algorithm name acfg with
      | Except.error e => Except.error e
      | Except.ok a =>
        match build_algorithms tl with
        | Except.error e => Except.error e
        | Except.ok more => Except.ok (a :: more) := rfl

/-- The list comprehension at line 112 equals an in-order `mapM` of
`build_algorithm` over the entries. -/
theorem build_algorithms_eq_mapM (l : List (String × Kwargs)) :
    build_algorithms l = l.mapM (fun p => build_algorithm p.1 p.2) := by
  induction l with
  | nil => rfl
  | cons p tl ih =>
    rcases p with ⟨name, acfg⟩
    rw [List.mapM_cons, ← ih, build_algorithms_cons]
    cases h1 : build_algorithm name acfg with
    | error e => simp [Bind.bind, Except.bind]
    | ok a =>
      cases h2 : build_algorithms tl with
      | error e => simp [Bind.bind, Except.bind]
      | ok more => simp [Bind.bind, Except.bind, Pure.pure, Except.pure]

/-- A successful comprehension yields one algorithm per entry. -/
theorem build_algorithms_length (l : List (String × Kwargs)) (al : List Algorithm)
    (h : build_algorithms l = Except.ok al) : al.length = l.length := by
  induction l generalizing al with
  | nil =>
    simp only [build_algorithms, Except.ok.injEq] at h
    subst h; rfl
  | cons p tl ih =>
    rcases p with ⟨name, acfg⟩
    unfold build_algorithms at h
    cases h1 : build_algorithm name acfg with
    | error e => rw [h1] at h; exact absurd h (by simp)
    | ok a =>
      rw [h1] at h
      cases h2 : build_algorithms tl with
      | error e => rw [h2] at h; exact absurd h (by simp)
      | ok more =>
        rw [h2] at h
        simp only [Except.ok.injEq] at h
        subst h
        simp [ih more h2]

/-- The run-name defaulting step touches no field other than `run_name`. -/
theorem resolve_cfg_fields (cfg : TrainConfig) (env : Env) :
    (resolve_cfg cfg env).scheduler = cfg.scheduler ∧
    (resolve_cfg cfg env).algorithms = cfg.algorithms ∧
    (resolve_cfg cfg env).dry_run = cfg.dry_run ∧
    (resolve_cfg cfg env).wandb = cfg.wandb ∧
    (resolve_cfg cfg env).console_log_interval = cfg.console_log_interval := by
  cases h : cfg.run_name <;> simp [resolve_cfg, h]

/-- A completed `main_body` carries exactly the algorithms the
comprehension built. -/
theorem main_body_algorithms (cfg : TrainConfig) (st : MainState)
    (h : main_body cfg = Except.ok st) :
    build_algorithms (cfg.algorithms.getD []) = Except.ok st.algorithms := by
  unfold main_body at h
  cases h1 : build_scheduler cfg.scheduler with
  | error e => rw [h1] at h; exact absurd h (by simp)
  | ok sched =>
    rw [h1] at h
    cases h2 : build_algorithms (cfg.algorithms.getD []) with
    | error e => rw [h2] at h; exact absurd h (by simp)
    | ok algs =>
      rw [h2] at h
      simp only [Except.ok.injEq] at h
      subst h
      rfl

/-- A completed `main_body` performs `fit` iff not a dry run, then
`close`, and echoes the matching final message. -/
theorem main_body_trainer (cfg : TrainConfig) (st : MainState)
    (h : main_body cfg = Except.ok st) :
    st.trainerEvents = (if cfg.dry_run then [] else [TrainerEvent.fit]) ++ [TrainerEvent.close] ∧
    st.message = (if cfg.dry_run then "Dry run complete" else "Training complete") := by
  unfold main_body at h
  cases h1 : build_scheduler cfg.scheduler with
  | error e => rw [h1] at h; exact absurd h (by simp)
  | ok sched =>
    rw [h1] at h
    cases h2 : build_algorithms (cfg.algorithms.getD []) with
    | error e => rw [h2] at h; exact absurd h (by simp)
    | ok algs =>
      rw [h2] at h
      simp only [Except.ok.injEq] at h
      subst h
      exact ⟨rfl, rfl⟩

/-- When both builders succeed, `main_body` completes. -/
theorem main_body_ok (cfg : TrainConfig) (s : Scheduler) (al : List Algorithm)
    (h1 : build_scheduler cfg.scheduler = Except.ok s)
    (h2 : build_algorithms (cfg.algorithms.getD []) = Except.ok al) :
    main_body cfg = Except.ok
      { run_name := cfg.run_name
        scheduler := s
        algorithms := al
        loggers := Logger.DolmaConsoleLogger cfg.console_log_interval ::
          (match cfg.wandb with
           | none => []
           | some kw => [Logger.WandBLogger kw])
        trainerEvents :=
          (if cfg.dry_run then [] else [TrainerEvent.fit]) ++ [TrainerEvent.close]
        message := if cfg.dry_run then "Dry run complete" else "Training complete" } := by
  unfold main_body
  rw [h1, h2]

/-- The two components of `main`: the returned config is the resolved one
and the result is `main_body` of it. -/
theorem main_eq (cfg : TrainConfig) (env : Env) :
    main cfg env = (resolve_cfg cfg env, main_body (resolve_cfg cfg env)) := rfl

/-! ### Claim theorems -/

/-- C1: for every `SchedulerConfig` with a recognized name,
`build_scheduler` selects the corresponding framework constructor with the
given parameters: `constant_with_warmup` yields
`ConstantWithWarmupScheduler(t_warmup=cfg.t_warmup)`, `cosine_with_warmup`
yields `CosineAnnealingWithWarmupScheduler(t_warmup=cfg.t_warmup,
alpha_f=cfg.alpha_f)`, and `linear_decay_with_warmup` yields
`LinearWithWarmupScheduler(t_warmup=cfg.t_warmup, alpha_f=cfg.alpha_f)`. -/
theorem claim_C1 (cfg : SchedulerConfig) :
    (cfg.name = "constant_with_warmup" →
      build_scheduler cfg = Except.ok (Scheduler.ConstantWithWarmupScheduler cfg.t_warmup)) ∧
    (cfg.name = "cosine_with_warmup" →
      build_scheduler cfg =
        Except.ok (Scheduler.CosineAnnealingWithWarmupScheduler cfg.t_warmup cfg.alpha_f)) ∧
    (cfg.name = "linear_decay_with_warmup" →
      build_scheduler cfg =
        Except.ok (Scheduler.LinearWithWarmupScheduler cfg.t_warmup cfg.alpha_f)) := by
  refine ⟨fun h => ?_, fun h => ?_, fun h => ?_⟩ <;> simp [build_scheduler, h]

/-- Witness for C1 at the cosine scheduler. -/
theorem claim_C1_witness :
    build_scheduler { name := "cosine_with_warmup", t_warmup := "100ba", alpha_f := "0.1" } =
      Except.ok (Scheduler.CosineAnnealingWithWarmupScheduler "100ba" "0.1") :=
  (claim_C1 { name := "cosine_with_warmup", t_warmup := "100ba", alpha_f := "0.1" }).2.1 rfl

/-- C2: for every recognized algorithm name, `build_algorithm` selects the
corresponding framework constructor with the keyword arguments passed
through unchanged, and no other names are recognized (every other name
produces an error). -/
theorem claim_C2 (name : String) (kwargs : Kwargs) :
    (name = "gradient_clipping" →
      build_algorithm name kwargs = Except.ok (Algorithm.GradientClipping kwargs)) ∧
    (name = "fused_layernorm" →
      build_algorithm name kwargs = Except.ok (Algorithm.FusedLayerNorm kwargs)) ∧
    (name = "gated_linear_units" →
      build_algorithm name kwargs = Except.ok (Algorithm.GatedLinearUnits kwargs)) ∧
    (name = "low_precision_layernorm" →
      build_algorithm name kwargs = Except.ok (Algorithm.LowPrecisionLayerNorm kwargs)) ∧
    (name ≠ "gradient_clipping" ∧ name ≠ "fused_layernorm" ∧
        name ≠ "gated_linear_units" ∧ name ≠ "low_precision_layernorm" →
      build_algorithm name kwargs =
        Except.error (PyError.ValueError ("Not sure how to build algorithm: " ++ name))) := by
  refine ⟨fun h => ?_, fun h => ?_, fun h => ?_, fun h => ?_, fun h => ?_⟩
  · simp [build_algorithm, h]
  · simp [build_algorithm, h]
  · simp [build_algorithm, h]
  · simp [build_algorithm, h]
  · obtain ⟨h1, h2, h3, h4⟩ := h
    simp [build_algorithm, h1, h2, h3, h4]

/-- Witness for C2 at `gradient_clipping` with a concrete kwargs map. -/
theorem claim_C2_witness :
    build_algorithm "gradient_clipping" [("clipping_type", "norm")] =
      Except.ok (Algorithm.GradientClipping [("clipping_type", "norm")]) :=
  (claim_C2 "gradient_clipping" [("clipping_type", "norm")]).1 rfl

/-- C3 counterexample: at the unrecognized name `"alibi"`,
`build_algorithm` raises the built-in `ValueError`, not the
`DolmaConfigurationError` the scheduler dispatcher uses, refuting the
claim that it raises the same configuration-error kind. -/
theorem claim_C3_counterexample :
    is_configuration_error (build_algorithm "alibi" []) = false ∧
    build_algorithm "alibi" [] =
      Except.error (PyError.ValueError "Not sure how to build algorithm: alibi") := by
  exact ⟨rfl, rfl⟩

/-- C3 (amended): for every name that is not one of the four recognized
algorithm names, `build_algorithm` raises a `ValueError` naming the
unrecognized algorithm (a different error kind from the scheduler
dispatcher's `DolmaConfigurationError`), and it raises for exactly those
unrecognized names: every recognized name succeeds. -/
theorem claim_C3 (name : String) (kwargs : Kwargs)
    (h : name ≠ "gradient_clipping" ∧ name ≠ "fused_layernorm" ∧
      name ≠ "gated_linear_units" ∧ name ≠ "low_precision_layernorm") :
    (build_algorithm name kwargs =
      Except.error (PyError.ValueError ("Not sure how to build algorithm: " ++ name))) ∧
    is_configuration_error (build_algorithm name kwargs) = false ∧
    ∀ name2 : String, ∀ kwargs2 : Kwargs,
      (name2 = "gradient_clipping" ∨ name2 = "fused_layernorm" ∨
        name2 = "gated_linear_units" ∨ name2 = "low_precision_layernorm") →
      ∃ a, build_algorithm name2 kwargs2 = Except.ok a := by
  obtain ⟨h1, h2, h3, h4⟩ := h
  refine ⟨by simp [build_algorithm, h1, h2, h3, h4], ?_, ?_⟩
  · simp [build_algorithm, h1, h2, h3, h4, is_configuration_error]
  · rintro name2 kwargs2 (h5 | h5 | h5 | h5)
    · exact ⟨Algorithm.GradientClipping kwargs2, by simp [build_algorithm, h5]⟩
    · exact ⟨Algorithm.FusedLayerNorm kwargs2, by simp [build_algorithm, h5]⟩
    · exact ⟨Algorithm.GatedLinearUnits kwargs2, by simp [build_algorithm, h5]⟩
    · exact ⟨Algorithm.LowPrecisionLayerNorm kwargs2, by simp [build_algorithm, h5]⟩

/-- Witness for C3 at the unrecognized name `"alibi"`. -/
theorem claim_C3_witness :
    build_algorithm "alibi" [("max_sequence_length", "1024")] =
      Except.error (PyError.ValueError "Not sure how to build algorithm: alibi") :=
  (claim_C3 "alibi" [("max_sequence_length", "1024")]
    ⟨by decide, by decide, by decide, by decide⟩).1

/-- C4: for every `SchedulerConfig` whose name is not one of the three
recognized scheduler names, `build_scheduler` raises a
`DolmaConfigurationError` whose message names the unrecognized scheduler,
and it raises for exactly those names: every recognized name succeeds. -/
theorem claim_C4 (cfg : SchedulerConfig)
    (h : cfg.name ≠ "constant_with_warmup" ∧ cfg.name ≠ "cosine_with_warmup" ∧
      cfg.name ≠ "linear_decay_with_warmup") :
    (build_scheduler cfg =
      Except.error
        (PyError.DolmaConfigurationError ("Not sure how to build scheduler: " ++ cfg.name))) ∧
    ∀ cfg2 : SchedulerConfig,
      (cfg2.name = "constant_with_warmup" ∨ cfg2.name = "cosine_with_warmup" ∨
        cfg2.name = "linear_decay_with_warmup") →
      ∃ s, build_scheduler cfg2 = Except.ok s := by
  obtain ⟨h1, h2, h3⟩ := h
  refine ⟨by simp [build_scheduler, h1, h2, h3], ?_⟩
  rintro cfg2 (h5 | h5 | h5)
  · exact ⟨Scheduler.ConstantWithWarmupScheduler cfg2.t_warmup, by simp [build_scheduler, h5]⟩
  · exact ⟨Scheduler.CosineAnnealingWithWarmupScheduler cfg2.t_warmup cfg2.alpha_f,
      by simp [build_scheduler, h5]⟩
  · exact ⟨Scheduler.LinearWithWarmupScheduler cfg2.t_warmup cfg2.alpha_f,
      by simp [build_scheduler, h5]⟩

/-- Witness for C4 at the unrecognized scheduler name `"foo"`. -/
theorem claim_C4_witness :
    build_scheduler { name := "foo", t_warmup := "10ba", alpha_f := "0.5" } =
      Except.error (PyError.DolmaConfigurationError "Not sure how to build scheduler: foo") :=
  (claim_C4 { name := "foo", t_warmup := "10ba", alpha_f := "0.5" }
    ⟨by decide, by decide, by decide⟩).1

/-- C5: invoking the script without the required positional config path
(argument list of length less than two, i.e. only the program name) makes
the `__main__` block raise a `DolmaCliError` usage error; the error branch
returns before the parsed pair is handed to configuration loading.  With a
config path present the block parses successfully, raising no usage
error. -/
theorem claim_C5 (prog : String) (path : String) (opts : List String) :
    script_entry [prog] =
      Except.error (PyError.DolmaCliError ("Usage: " ++ prog ++ " [CONFIG_PATH] [OPTIONS]")) ∧
    script_entry (prog :: path :: opts) = Except.ok (path, opts) :=
  ⟨rfl, rfl⟩

/-- A concrete training configuration used to instantiate the theorems
about `main`: run name unset, a recognized cosine scheduler, one
`gradient_clipping` algorithm entry, no wandb, not a dry run. -/
def cfgW : TrainConfig where
  run_name := none
  seed := 42
  scheduler := { name := "cosine_with_warmup", t_warmup := "100ba", alpha_f := "0.1" }
  algorithms := some [("gradient_clipping", [("clipping_type", "norm")])]
  wandb := none
  console_log_interval := 1
  dry_run := false

/-- `cfgW` with `dry_run` set. -/
def cfgDryW : TrainConfig := { cfgW with dry_run := true }

/-- `cfgW` with the run name already set. -/
def cfgNamedW : TrainConfig := { cfgW with run_name := some "fixed-run" }

/-- An environment with `COMPOSER_RUN_NAME` unset. -/
def envNone : Env where
  COMPOSER_RUN_NAME := none

/-- An environment with `COMPOSER_RUN_NAME` set to `"myrun"`. -/
def envSome : Env where
  COMPOSER_RUN_NAME := some "myrun"

/-- The outcome of running `main` on `cfgW` in the empty environment. -/
def stW : MainState where
  run_name := some "llm"
  scheduler := Scheduler.CosineAnnealingWithWarmupScheduler "100ba" "0.1"
  algorithms := [Algorithm.GradientClipping [("clipping_type", "norm")]]
  loggers := [Logger.DolmaConsoleLogger 1]
  trainerEvents := [TrainerEvent.fit, TrainerEvent.close]
  message := "Training complete"

/-- The outcome of running `main` on `cfgDryW` in the empty environment. -/
def stDryW : MainState :=
  { stW with trainerEvents := [TrainerEvent.close], message := "Dry run complete" }

/-- C6 counterexample: a run of `main` on a dry-run configuration
completes with trainer events `[close]` only, so `fit` is not called
exactly once in every run of `main`. -/
theorem claim_C6_counterexample :
    (main cfgDryW envNone).2 = Except.ok stDryW ∧
    TrainerEvent.fit ∉ stDryW.trainerEvents ∧
    stDryW.trainerEvents = [TrainerEvent.close] :=
  ⟨rfl, by decide, rfl⟩

/-- C6 (amended): in every run of `main` that completes normally and has
`cfg.dry_run` false, the trainer's `fit` method is called exactly once and
its `close` method exactly once, with `fit` preceding `close`. -/
theorem claim_C6 (cfg : TrainConfig) (env : Env) (st : MainState)
    (hok : (main cfg env).2 = Except.ok st) (hdry : cfg.dry_run = false) :
    st.trainerEvents = [TrainerEvent.fit, TrainerEvent.close] := by
  have hb : main_body (resolve_cfg cfg env) = Except.ok st := hok
  have h := (main_body_trainer (resolve_cfg cfg env) st hb).1
  rw [(resolve_cfg_fields cfg env).2.2.1, hdry] at h
  simpa using h

/-- Witness for C6 on the concrete non-dry-run configuration `cfgW`. -/
theorem claim_C6_witness :
    stW.trainerEvents = [TrainerEvent.fit, TrainerEvent.close] :=
  claim_C6 cfgW envNone stW rfl rfl

/-- C7: when `cfg.run_name` is unset, `main` defaults the run name from
the environment: it becomes the value of `COMPOSER_RUN_NAME` when that
variable is set, and `"llm"` when it is not. -/
theorem claim_C7 (cfg : TrainConfig) (env : Env) (h : cfg.run_name = none) :
    (main cfg env).1.run_name = some (env.COMPOSER_RUN_NAME.getD "llm") ∧
    (∀ v, env.COMPOSER_RUN_NAME = some v → (main cfg env).1.run_name = some v) ∧
    (env.COMPOSER_RUN_NAME = none → (main cfg env).1.run_name = some "llm") := by
  have h1 : (main cfg env).1 = resolve_cfg cfg env := rfl
  refine ⟨?_, fun v hv => ?_, fun hv => ?_⟩
  · simp [h1, resolve_cfg, h]
  · simp [h1, resolve_cfg, h, hv]
  · simp [h1, resolve_cfg, h, hv]

/-- Witness for C7: with `COMPOSER_RUN_NAME=myrun` the run name becomes
`myrun`; with it unset the run name becomes `llm`. -/
theorem claim_C7_witness :
    (main cfgW envSome).1.run_name = some "myrun" ∧
    (main cfgW envNone).1.run_name = some "llm" :=
  ⟨(claim_C7 cfgW envSome rfl).2.1 "myrun" rfl, (claim_C7 cfgW envNone rfl).2.2 rfl⟩

/-- C8: with `cfg.dry_run` true, `main` never calls the trainer's `fit`
method in any run, and every normally completing run calls `close` exactly
once and reports success with `"Dry run complete"`. -/
theorem claim_C8 (cfg : TrainConfig) (env : Env) (hdry : cfg.dry_run = true) :
    TrainerEvent.fit ∉ mainTrainerEvents cfg env ∧
    ∀ st, (main cfg env).2 = Except.ok st →
      st.trainerEvents = [TrainerEvent.close] ∧ st.message = "Dry run complete" := by
  have hdry2 : (resolve_cfg cfg env).dry_run = true := by
    rw [(resolve_cfg_fields cfg env).2.2.1]; exact hdry
  have hbody : ∀ st, main_body (resolve_cfg cfg env) = Except.ok st →
      st.trainerEvents = [TrainerEvent.close] ∧ st.message = "Dry run complete" := by
    intro st hb
    have h2 := main_body_trainer (resolve_cfg cfg env) st hb
    rw [hdry2] at h2
    simpa using h2
  constructor
  · unfold mainTrainerEvents
    cases hm : (main cfg env).2 with
    | error e => simp
    | ok st =>
      have h3 := (hbody st hm).1
      simp [h3]
  · intro st hm
    exact hbody st hm

/-- Witness for C8 on the concrete dry-run configuration `cfgDryW`. -/
theorem claim_C8_witness :
    TrainerEvent.fit ∉ mainTrainerEvents cfgDryW envNone ∧
    stDryW.trainerEvents = [TrainerEvent.close] ∧ stDryW.message = "Dry run complete" :=
  ⟨(claim_C8 cfgDryW envNone rfl).1, (claim_C8 cfgDryW envNone rfl).2 stDryW rfl⟩

/-- C9: when `cfg.algorithms` is unset, `main` builds an empty algorithms
list and the algorithm-building step raises nothing (the run completes
whenever the scheduler builds); when `cfg.algorithms` is a map, one
algorithm is built per entry via `build_algorithm`, in entry order (the
built list is the in-order `mapM` image of the entries and has one element
per entry). -/
theorem claim_C9 (cfg : TrainConfig) (env : Env) :
    (cfg.algorithms = none →
      (∀ st, (main cfg env).2 = Except.ok st → st.algorithms = []) ∧
      (∀ s, build_scheduler cfg.scheduler = Except.ok s →
        ∃ st, (main cfg env).2 = Except.ok st ∧ st.algorithms = [])) ∧
    (∀ entries st, cfg.algorithms = some entries → (main cfg env).2 = Except.ok st →
      entries.mapM (fun p => build_algorithm p.1 p.2) = Except.ok st.algorithms ∧
      st.algorithms.length = entries.length) := by
  have halg : (resolve_cfg cfg env).algorithms = cfg.algorithms :=
    (resolve_cfg_fields cfg env).2.1
  have hsched : (resolve_cfg cfg env).scheduler = cfg.scheduler :=
    (resolve_cfg_fields cfg env).1
  constructor
  · intro hnone
    constructor
    · intro st hok
      have h := main_body_algorithms (resolve_cfg cfg env) st hok
      rw [halg, hnone] at h
      simp only [Option.getD_none, build_algorithms, Except.ok.injEq] at h
      exact h.symm
    · intro s hs
      have hs2 : build_scheduler (resolve_cfg cfg env).scheduler = Except.ok s := by
        rw [hsched]; exact hs
      have h2 : build_algorithms ((resolve_cfg cfg env).algorithms.getD []) = Except.ok [] := by
        rw [halg, hnone]; rfl
      exact ⟨_, main_body_ok (resolve_cfg cfg env) s [] hs2 h2, rfl⟩
  · intro entries st hsome hok
    have h := main_body_algorithms (resolve_cfg cfg env) st hok
    rw [halg, hsome] at h
    simp only [Option.getD_some] at h
    have hlen := build_algorithms_length entries st.algorithms h
    rw [build_algorithms_eq_mapM] at h
    exact ⟨h, hlen⟩

/-- Witness for C9 on `cfgW`, whose algorithms map has one
`gradient_clipping` entry. -/
theorem claim_C9_witness :
    List.mapM (fun p => build_algorithm p.1 p.2)
        [("gradient_clipping", [("clipping_type", "norm")])] = Except.ok stW.algorithms ∧
    stW.algorithms.length = 1 :=
  (claim_C9 cfgW envNone).2 [("gradient_clipping", [("clipping_type", "norm")])] stW rfl rfl

/-- C10: when `cfg.run_name` is already set, `main` leaves it unchanged
and its entire behavior is independent of the environment (in particular
it does not consult `COMPOSER_RUN_NAME`). -/
theorem claim_C10 (cfg : TrainConfig) (env env2 : Env) (n : String)
    (h : cfg.run_name = some n) :
    (main cfg env).1.run_name = some n ∧ main cfg env = main cfg env2 := by
  have h1 : resolve_cfg cfg env = cfg := by simp [resolve_cfg, h]
  have h2 : resolve_cfg cfg env2 = cfg := by simp [resolve_cfg, h]
  constructor
  · rw [main_eq cfg env]
    show (resolve_cfg cfg env).run_name = some n
    rw [h1]; exact h
  · rw [main_eq cfg env, main_eq cfg env2, h1, h2]

/-- Witness for C10 on a configuration carrying the run name
`"fixed-run"`, compared across two environments. -/
theorem claim_C10_witness :
    (main cfgNamedW envSome).1.run_name = some "fixed-run" ∧
    main cfgNamedW envSome = main cfgNamedW envNone :=
  claim_C10 cfgNamedW envSome envNone "fixed-run" rfl

end Train
